import Mathlib

set_option linter.unusedVariables false

/-!
Verification of the event aggregation pipeline in `events_service.py`.

This file gives a shallow embedding of the pipeline: `geocode_zip`,
`_to_local_naive`, `_haversine_miles`, `fetch_ticketmaster_events`,
`fetch_eventbrite_events` and `aggregate_events`, together with the
normalization helpers they contain, and proves properties of the embedding.

Modelling conventions:
- HTTP exchanges are modelled by "world" functions mapping the credential
  actually sent and the requested page number to the (already JSON-decoded)
  response.  The query parameters other than page and credential
  (coordinates, radius, date window) are fixed for the duration of one
  fetch, so they are absorbed into the world.  Network-level exceptions
  behave, at every use site in the source, exactly like a non-2xx status
  (page 0 / page 1: whole fetch returns `[]`; later Ticketmaster pages:
  that page's future is dropped; later Eventbrite pages: loop breaks),
  so they are not modelled separately.
- Python exceptions are modelled with `Except PyErr`; a function wrapped in
  a `try ... except Exception` in the source is the total function obtained
  by mapping `.error` to the handler's result.
- `datetime` values are wall-clock minutes since an epoch plus an optional
  UTC offset (`tz = none` is a naive datetime).  The ambient local timezone
  used by `astimezone(tz=None)` is an explicit parameter `localOff`.
- Strings fed to `float()` are modelled by `PyNum`: either a convertible
  value or a value on which `float()` raises.  Date strings are modelled by
  `DateText`, the outcome of the `fromisoformat` / `strptime` parse chain.
- Floats (coordinates, prices) are modelled as rationals; the pipeline does
  no arithmetic on them.
- `geopy.distance.geodesic`, a third-party library, is a parameter of
  `_haversine_miles`.
- The nondeterministic completion order of `as_completed` over the
  Ticketmaster page futures is an explicit parameter `order`; it is
  meaningful when it enumerates the submitted pages `1 .. totalPages - 1`.
-/

/-- Backend default Ticketmaster API key (module-level constant). -/
def DEFAULT_TM_API_KEY : String := "VHANTNxOcGFfpUD3k3whDbU1TiqBfbGs"

/-- Backend default Eventbrite API key (module-level constant). -/
def DEFAULT_EB_API_KEY : String := "272DADRV35ZXG3IS55"

/-- Python exceptions that the embedded code can raise. -/
inductive PyErr where
  | valueError (msg : String)
  | indexError
deriving DecidableEq, Repr

/-- Python `a or b` for an optional string `a`: `None` and `""` are falsy. -/
def pyOrStr (a : Option String) (b : String) : String :=
  match a with
  | some s => if s = "" then b else s
  | none => b

/-- Python `s.strip()`: drop whitespace from both ends of the character
sequence (Lean's `Char.isWhitespace` standing in for Python's notion). -/
def pyStrip (s : String) : String :=
  ⟨((s.data.dropWhile Char.isWhitespace).reverse.dropWhile Char.isWhitespace).reverse⟩

/-- Python `s.lower()` (ASCII case-folding standing in for Python's). -/
def pyLower (s : String) : String := ⟨s.data.map Char.toLower⟩

/-- Python `s[:n]`: the first `n` characters of `s`. -/
def pyTake (n : Nat) (s : String) : String := ⟨s.data.take n⟩

/-- Python `s.startswith(pre)`. -/
def pyStartsWith (s pre : String) : Bool := pre.data.isPrefixOf s.data

/-- Python `datetime`: wall-clock minutes since an epoch, plus the UTC
offset in minutes when the value is timezone-aware (`tz = none` is naive). -/
structure PyDateTime where
  wall : Int
  tz : Option Int
deriving DecidableEq, Repr

/-- Calendar-day component `d.date()` of a datetime (days since the epoch). -/
def PyDateTime.dateDay (d : PyDateTime) : Int := Int.fdiv d.wall 1440

/-- Embedding of `_to_local_naive`: an aware datetime is converted to the
local zone (`astimezone(tz=None)`) and stripped of its offset; a naive
datetime is returned unchanged. -/
def _to_local_naive (localOff : Int) (dt : PyDateTime) : PyDateTime :=
  match dt.tz with
  | some off => { wall := dt.wall - off + localOff, tz := none }
  | none => dt

/-- Embedding of `_haversine_miles`: delegates to `geopy.distance.geodesic`,
a third-party library modelled as the parameter `geodesic`. -/
def _haversine_miles (geodesic : Rat → Rat → Rat → Rat → Rat)
    (lat1 lon1 lat2 lon2 : Rat) : Rat :=
  geodesic lat1 lon1 lat2 lon2

/-- Embedding of `geocode_zip`: the Nominatim lookup is the parameter
`geocoder`; the source's `except Exception: pass` and the falsy-location
check both produce `None`, folded into the geocoder's `none` outcome. -/
def geocode_zip (geocoder : String → Option (Rat × Rat)) (zip_code : String) :
    Option (Rat × Rat) :=
  geocoder zip_code

/-- Canonical event record (the `Event` dataclass). -/
structure Event where
  title : String
  date : PyDateTime
  location : String
  latitude : Rat
  longitude : Rat
  url : String
  source : String
  image_url : String := ""
  price_min : Option Rat := none
  price_max : Option Rat := none
  currency : String := ""
deriving DecidableEq, Repr

/-- A JSON value about to be passed to `float()`: either convertible to a
number or a value on which `float()` raises `ValueError`. -/
inductive PyNum where
  | num (x : Rat)
  | bad
deriving DecidableEq, Repr

/-- Python `float(d.get(key, default))`: absent key yields the default,
a convertible value yields the value, an inconvertible one raises. -/
def pyFloatField (default : Rat) : Option PyNum → Except PyErr Rat
  | none => .ok default
  | some (.num x) => .ok x
  | some .bad => .error (.valueError "could not convert string to float")

/-- Outcome of the date-text parse chain used by both providers: first
`datetime.fromisoformat` (after the `Z` → `+00:00` replacement), then
`datetime.strptime(text[:10], "%Y-%m-%d")`, else unparseable. -/
inductive DateText where
  | iso (wall : Int) (tz : Option Int)
  | dateOnly (day : Int)
  | malformed
deriving DecidableEq, Repr

/-- Result of the two-step parse of a date text: an ISO parse gives the
encoded datetime, a date-only parse gives midnight of that day (naive),
and an unparseable text gives nothing (the item is skipped). -/
def parseDateText : DateText → Option PyDateTime
  | .iso wall tz => some { wall := wall, tz := tz }
  | .dateOnly day => some { wall := day * 1440, tz := none }
  | .malformed => none

/-- Python `a or b` for two optional date texts (absent or empty strings
are falsy and are both encoded as `none`). -/
def pyOrOpt (a b : Option DateText) : Option DateText :=
  match a with
  | some x => some x
  | none => b

/-! ### Ticketmaster provider -/

/-- One entry of a Ticketmaster venue's `location` dict plus its name. -/
structure TMVenue where
  locLatitude : Option PyNum
  locLongitude : Option PyNum
  name : Option String
deriving DecidableEq, Repr

/-- One entry of a Ticketmaster item's `images` list. -/
structure TMImage where
  url : Option String
deriving DecidableEq, Repr

/-- One entry of a Ticketmaster item's `priceRanges` list. -/
structure TMPriceRange where
  min : Option PyNum
  max : Option PyNum
  currency : Option String
deriving DecidableEq, Repr

/-- One raw Ticketmaster event item, with the fields the normalizer reads.
`dateTime` and `localDate` are the two date texts under `dates.start`
(absent or empty strings encoded as `none`); `venues` is the
`_embedded.venues` list when that key is present. -/
structure TMItem where
  name : Option String
  dateTime : Option DateText
  localDate : Option DateText
  venues : Option (List TMVenue)
  url : Option String
  id : Option String
  images : List TMImage
  priceRanges : List TMPriceRange
deriving DecidableEq, Repr

/-- One decoded Ticketmaster response page: HTTP status, the
`_embedded.events` list, and the `page.totalPages` field. -/
structure TMPage where
  status : Nat
  events : List TMItem
  totalPages : Nat
deriving DecidableEq, Repr

/-- Ticketmaster HTTP world: the response as a function of the API key sent
and the requested page number. -/
def TMWorld : Type := String → Nat → TMPage

/-- Embedding of `_tm_event_url`: prefer the item's `url` field when it is a
non-empty absolute URL, else synthesize one from the item's `id`. -/
def _tm_event_url (ev : TMItem) : String :=
  let raw := pyStrip (pyOrStr ev.url "")
  if raw ≠ "" ∧ pyStartsWith raw "http" then raw
  else
    let ev_id := pyStrip (pyOrStr ev.id "")
    if ev_id ≠ "" then "https://www.ticketmaster.com/event/" ++ ev_id
    else ""

/-- Access to `ev.get("_embedded", {}).get("venues", [{}])[0]`: a missing
`venues` key falls back to one empty venue dict, but an explicitly empty
list raises `IndexError`. -/
def tmGetVenue (ev : TMItem) : Except PyErr TMVenue :=
  match ev.venues with
  | none => .ok { locLatitude := none, locLongitude := none, name := none }
  | some [] => .error .indexError
  | some (v :: _) => .ok v

/-- First image URL of the item's `images` list, or the empty string. -/
def tmImageUrl (ev : TMItem) : String :=
  match ev.images with
  | [] => ""
  | img :: _ => pyOrStr img.url ""

/-- Price min/max of the first `priceRanges` entry.  Both conversions run in
one `try`: a failing `float(min)` leaves both unset, a failing `float(max)`
keeps the already-converted min. -/
def tmPriceMinMax (mn mx : Option PyNum) : Option Rat × Option Rat :=
  match mn with
  | some .bad => (none, none)
  | some (.num x) =>
    match mx with
    | some .bad => (some x, none)
    | some (.num y) => (some x, some y)
    | none => (some x, none)
  | none =>
    match mx with
    | some .bad => (none, none)
    | some (.num y) => (none, some y)
    | none => (none, none)

/-- Price information of a Ticketmaster item: min, max and currency from the
first `priceRanges` entry (the currency is set outside the `try`). -/
def tmPriceInfo (ev : TMItem) : Option Rat × Option Rat × String :=
  match ev.priceRanges with
  | [] => (none, none, "")
  | p0 :: _ =>
    let mm := tmPriceMinMax p0.min p0.max
    (mm.1, mm.2, pyOrStr p0.currency "")

/-- Normalization of one raw Ticketmaster item, exactly as in the per-item
bodies of `fetch_ticketmaster_events`: `.ok none` models `continue` (no
usable date), `.error` models an uncaught exception (empty `venues` list or
an inconvertible venue coordinate). -/
def tmNormalize (localOff : Int) (lat lon : Rat) (ev : TMItem) :
    Except PyErr (Option Event) :=
  let name := pyOrStr ev.name "Ticketmaster Event"
  match parseDateText' (pyOrOpt ev.dateTime ev.localDate) with
  | none => .ok none
  | some dt0 =>
    let dt := _to_local_naive localOff dt0
    match tmGetVenue ev with
    | .error e => .error e
    | .ok venue =>
      match pyFloatField lat venue.locLatitude with
      | .error e => .error e
      | .ok vlat =>
        match pyFloatField lon venue.locLongitude with
        | .error e => .error e
        | .ok vlon =>
          let pmc := tmPriceInfo ev
          .ok (some { title := name, date := dt, location := pyOrStr venue.name "",
                      latitude := vlat, longitude := vlon, url := _tm_event_url ev,
                      source := "Ticketmaster", image_url := tmImageUrl ev,
                      price_min := pmc.1, price_max := pmc.2.1, currency := pmc.2.2 })
where
  /-- Chosen date text parsed, `none` when absent or unparseable. -/
  parseDateText' (o : Option DateText) : Option PyDateTime := o.bind parseDateText

/-- Processing of the first page's items: an exception raised while
normalizing any item propagates (it will reach the fetch's outer handler). -/
def tmProcessFirst (localOff : Int) (lat lon : Rat) :
    List TMItem → Except PyErr (List Event)
  | [] => .ok []
  | ev :: rest =>
    match tmNormalize localOff lat lon ev with
    | .error e => .error e
    | .ok none => tmProcessFirst localOff lat lon rest
    | .ok (some x) =>
      match tmProcessFirst localOff lat lon rest with
      | .error e => .error e
      | .ok xs => .ok (x :: xs)

/-- Processing of a later page's items inside the per-future
`try ... except Exception: continue`: an exception drops the rest of that
page's items but keeps the events already appended. -/
def tmProcessCaught (localOff : Int) (lat lon : Rat) :
    List TMItem → List Event
  | [] => []
  | ev :: rest =>
    match tmNormalize localOff lat lon ev with
    | .error _ => []
    | .ok none => tmProcessCaught localOff lat lon rest
    | .ok (some x) => x :: tmProcessCaught localOff lat lon rest

/-- Embedding of the inner `fetch_page`: 401/403 raises, any other non-200
status yields an empty item list. -/
def tm_fetch_page (w : TMWorld) (apiKey : String) (p : Nat) :
    Except PyErr (List TMItem) :=
  let r := w apiKey p
  if r.status = 401 ∨ r.status = 403 then
    .error (.valueError "Ticketmaster API key is invalid or unauthorized.")
  else if r.status ≠ 200 then .ok []
  else .ok r.events

/-- Contribution of one later page to the output: the events of that page
up to the first exception, or nothing when the page's future failed. -/
def tmPageContribution (w : TMWorld) (apiKey : String) (localOff : Int)
    (lat lon : Rat) (p : Nat) : List Event :=
  match tm_fetch_page w apiKey p with
  | .error _ => []
  | .ok items => tmProcessCaught localOff lat lon items

/-- Body of `fetch_ticketmaster_events` (the `try` block): resolve the key,
issue page 0 (401/403 raises, other non-200 yields `[]`), read
`totalPages` (`int(...) or 1`), process the first page, then, when more
than one page exists, append each later page's contribution in the
`as_completed` completion order `order`. -/
def fetch_ticketmaster_eventsE (w : TMWorld) (order : List Nat)
    (localOff : Int) (lat lon : Rat) (radius_miles : Rat)
    (start_date end_date : PyDateTime) (api_key : Option String) :
    Except PyErr (List Event) :=
  let apiKey := pyOrStr api_key DEFAULT_TM_API_KEY
  let resp0 := w apiKey 0
  if resp0.status = 401 ∨ resp0.status = 403 then
    .error (.valueError "Ticketmaster API key is invalid or unauthorized.")
  else if resp0.status ≠ 200 then .ok []
  else
    let total_pages := if resp0.totalPages = 0 then 1 else resp0.totalPages
    match tmProcessFirst localOff lat lon resp0.events with
    | .error e => .error e
    | .ok out0 =>
      if total_pages > 1 then
        .ok (out0 ++ (order.map (tmPageContribution w apiKey localOff lat lon)).flatten)
      else .ok out0

/-- Embedding of `fetch_ticketmaster_events`: the `try` body with the
catch-all `except Exception: return []` applied. -/
def fetch_ticketmaster_events (w : TMWorld) (order : List Nat)
    (localOff : Int) (lat lon : Rat) (radius_miles : Rat)
    (start_date end_date : PyDateTime) (api_key : Option String) :
    List Event :=
  match fetch_ticketmaster_eventsE w order localOff lat lon radius_miles
      start_date end_date api_key with
  | .error _ => []
  | .ok out => out

/-! ### Eventbrite provider -/

/-- An Eventbrite item's `venue` object, with the fields the normalizer
reads (`address.localized_address_display` flattened to one field). -/
structure EBVenue where
  latitude : Option PyNum
  longitude : Option PyNum
  name : Option String
  addressDisplay : Option String
deriving DecidableEq, Repr

/-- One entry of an Eventbrite `ticket_classes` list; `costMajorValue` and
`costCurrency` are the `cost.major_value` and `cost.currency` fields
(`none` when `cost` is null or the key is absent). -/
structure EBTicketClass where
  free : Bool
  donation : Bool
  costMajorValue : Option PyNum
  costCurrency : Option String
deriving DecidableEq, Repr

/-- One raw Eventbrite event item. `nameText` is `name.text`; `startUtc`
and `startLocal` are the two date texts under `start` (absent or empty
strings encoded as `none`); `logoUrl` is `logo.url`. -/
structure EBItem where
  nameText : Option String
  startUtc : Option DateText
  startLocal : Option DateText
  venue : Option EBVenue
  url : Option String
  logoUrl : Option String
  id : Option String
deriving DecidableEq, Repr

/-- One decoded Eventbrite search response page: HTTP status, the `events`
list, and the `pagination.page_count` field. -/
structure EBPage where
  status : Nat
  events : List EBItem
  pageCount : Nat
deriving DecidableEq, Repr

/-- One decoded `ticket_classes` response. -/
structure TCResp where
  status : Nat
  classes : List EBTicketClass
deriving DecidableEq, Repr

/-- Eventbrite HTTP world: the search response as a function of the bearer
token sent and the page number, and the ticket-classes response as a
function of the token and the event id. -/
structure EBWorld where
  search : String → Nat → EBPage
  tickets : String → String → TCResp

/-- Embedding of `_price_for_event`: on a 200 response, collect the
`cost.major_value` of every non-free, non-donation ticket class (an
inconvertible value is skipped by the inner `except: pass`, leaving the
currency untouched); return min/max of the collected prices, or all-empty
when none were collected or the request failed. -/
def _price_for_event (w : EBWorld) (token evt_id : String) :
    Option Rat × Option Rat × String :=
  let tr := w.tickets token evt_id
  if tr.status ≠ 200 then (none, none, "")
  else
    let pc := tr.classes.foldl
      (fun (acc : List Rat × String) c =>
        if c.free || c.donation then acc
        else
          match c.costMajorValue with
          | none => acc
          | some .bad => acc
          | some (.num x) => (acc.1 ++ [x], pyOrStr c.costCurrency acc.2))
      ([], "")
    match pc.1 with
    | [] => (none, none, "")
    | p :: ps => (some (ps.foldl min p), some (ps.foldl max p), pc.2)

/-- Embedding of `_coerce_latlon`: convert both venue coordinates; if either
conversion raises, fall back to the search center for both. -/
def _coerce_latlon (lat lon : Rat) (vla vlo : Option PyNum) : Rat × Rat :=
  match pyFloatField lat vla with
  | .error _ => (lat, lon)
  | .ok a =>
    match pyFloatField lon vlo with
    | .error _ => (lat, lon)
    | .ok b => (a, b)

/-- Normalization of one raw Eventbrite item, as in the body of
`_process_events`: `none` models `continue` (no usable date).  Nothing in
the body can raise in the model (`_coerce_latlon` and `_price_for_event`
catch their own exceptions), so the per-item `except: continue` has no
other effect. -/
def ebNormalize (w : EBWorld) (token : String) (localOff : Int)
    (lat lon : Rat) (ev : EBItem) : Option Event :=
  let name := pyOrStr ev.nameText "Eventbrite Event"
  match (pyOrOpt ev.startUtc ev.startLocal).bind parseDateText with
  | none => none
  | some dt0 =>
    let dt := _to_local_naive localOff dt0
    let venue := ev.venue.getD
      { latitude := none, longitude := none, name := none, addressDisplay := none }
    let vl := _coerce_latlon lat lon venue.latitude venue.longitude
    let loc := pyOrStr venue.name (venue.addressDisplay.getD "")
    let url := pyStrip (pyOrStr ev.url "")
    let image_url := pyOrStr ev.logoUrl ""
    let evt_id := pyStrip (pyOrStr ev.id "")
    let pmc := if evt_id ≠ "" then _price_for_event w token evt_id else (none, none, "")
    some { title := name, date := dt, location := loc, latitude := vl.1,
           longitude := vl.2, url := url, source := "Eventbrite",
           image_url := image_url, price_min := pmc.1, price_max := pmc.2.1,
           currency := pmc.2.2 }

/-- Embedding of `_process_events` over one page's item list. -/
def ebProcessItems (w : EBWorld) (token : String) (localOff : Int)
    (lat lon : Rat) (items : List EBItem) : List Event :=
  items.filterMap (ebNormalize w token localOff lat lon)

/-- Embedding of the sequential page loop `for p in range(2, page_count+1)`:
a non-200 response breaks out of the loop, dropping that page and every
later one. -/
def ebFetchPages (w : EBWorld) (token : String) (localOff : Int)
    (lat lon : Rat) : List Nat → List Event
  | [] => []
  | p :: rest =>
    let rp := w.search token p
    if rp.status ≠ 200 then []
    else ebProcessItems w token localOff lat lon rp.events
      ++ ebFetchPages w token localOff lat lon rest

/-- Body of `fetch_eventbrite_events` (the `try` block): resolve the token,
issue page 1 (401 raises, other non-200 yields `[]`), read `page_count`
(`int(...) or 1`), process the first page, then run the sequential loop
over pages `2 .. page_count`. -/
def fetch_eventbrite_eventsE (w : EBWorld) (localOff : Int) (lat lon : Rat)
    (radius_miles : Rat) (start_date end_date : PyDateTime)
    (api_key : Option String) : Except PyErr (List Event) :=
  let token := pyOrStr api_key DEFAULT_EB_API_KEY
  let r0 := w.search token 1
  if r0.status = 401 then
    .error (.valueError "Eventbrite API key is invalid or unauthorized.")
  else if r0.status ≠ 200 then .ok []
  else
    let page_count := if r0.pageCount = 0 then 1 else r0.pageCount
    .ok (ebProcessItems w token localOff lat lon r0.events
      ++ ebFetchPages w token localOff lat lon (List.range' 2 (page_count - 1)))

/-- Embedding of `fetch_eventbrite_events`: the `try` body with the
catch-all `except Exception: return []` applied. -/
def fetch_eventbrite_events (w : EBWorld) (localOff : Int) (lat lon : Rat)
    (radius_miles : Rat) (start_date end_date : PyDateTime)
    (api_key : Option String) : List Event :=
  match fetch_eventbrite_eventsE w localOff lat lon radius_miles start_date
      end_date api_key with
  | .error _ => []
  | .ok out => out

/-! ### Aggregator -/

/-- Dedup key of an event: the title stripped of surrounding whitespace,
lower-cased and truncated to its first 40 characters, paired with the
calendar-day component of the date (`e.title.strip().lower()[:40]`,
`e.date.date()`). -/
def dedupKey (e : Event) : String × Int :=
  (pyTake 40 (pyLower (pyStrip e.title)), e.date.dateDay)

/-- The dedup loop of `aggregate_events`: walk the merged list, keep an
event whose key is unseen and record the key, skip an event whose key was
already seen. -/
def dedupGo (seen : List (String × Int)) : List Event → List Event
  | [] => []
  | e :: rest =>
    if dedupKey e ∈ seen then dedupGo seen rest
    else e :: dedupGo (dedupKey e :: seen) rest

/-- Deduplication by `(title[:40] lower-cased, day)`, first occurrence kept. -/
def dedup (l : List Event) : List Event := dedupGo [] l

/-- Insertion of an event into a (sorted) accumulator, after every element
whose date is not greater: the insertion step of a stable sort by date. -/
def insertByDate (e : Event) : List Event → List Event
  | [] => [e]
  | a :: rest =>
    if a.date.wall ≤ e.date.wall then a :: insertByDate e rest
    else e :: a :: rest

/-- Embedding of `sorted(uniq, key=lambda x: x.date)`: Python's `sorted` is
a stable sort; it is modelled as a stable insertion sort on the date key
(all dates in the pipeline are naive, so the key comparison is the
wall-clock comparison). -/
def pySortedByDate (l : List Event) : List Event :=
  l.foldl (fun acc e => insertByDate e acc) []

/-- Embedding of `aggregate_events`: geocode the postal code (failure gives
`[]`), fetch Ticketmaster with the caller's key and Eventbrite with `None`
as its key, concatenate, dedup and sort. -/
def aggregate_events (geocoder : String → Option (Rat × Rat)) (tmW : TMWorld)
    (order : List Nat) (ebW : EBWorld) (localOff : Int) (zip_code : String)
    (radius_miles : Rat) (start_date end_date : PyDateTime)
    (tm_key : Option String) : List Event :=
  match geocode_zip geocoder zip_code with
  | none => []
  | some (lat, lon) =>
    let tm := fetch_ticketmaster_events tmW order localOff lat lon
      radius_miles start_date end_date tm_key
    let eb := fetch_eventbrite_events ebW localOff lat lon radius_miles
      start_date end_date none
    pySortedByDate (dedup (tm ++ eb))

/-- The merged, deduplicated list of `aggregate_events` before the final
sort (the `uniq` list of the source). -/
def aggregate_presort (geocoder : String → Option (Rat × Rat)) (tmW : TMWorld)
    (order : List Nat) (ebW : EBWorld) (localOff : Int) (zip_code : String)
    (radius_miles : Rat) (start_date end_date : PyDateTime)
    (tm_key : Option String) : List Event :=
  match geocode_zip geocoder zip_code with
  | none => []
  | some (lat, lon) =>
    dedup (fetch_ticketmaster_events tmW order localOff lat lon radius_miles
        start_date end_date tm_key
      ++ fetch_eventbrite_events ebW localOff lat lon radius_miles start_date
        end_date none)

/-! ### Concrete example data used by counterexamples and witnesses -/

/-- A fixed naive datetime used where a date-window argument is needed. -/
def epochDT : PyDateTime := { wall := 0, tz := none }

def c1TM401 : TMWorld := fun _ _ => { status := 401, events := [], totalPages := 1 }

def c1TM403 : TMWorld := fun _ _ => { status := 403, events := [], totalPages := 1 }

def c1TMZero : TMWorld := fun _ _ => { status := 200, events := [], totalPages := 1 }

def c1EB401 : EBWorld :=
  { search := fun _ _ => { status := 401, events := [], pageCount := 1 },
    tickets := fun _ _ => { status := 404, classes := [] } }

def c1EBZero : EBWorld :=
  { search := fun _ _ => { status := 200, events := [], pageCount := 1 },
    tickets := fun _ _ => { status := 404, classes := [] } }

/-- Geocoder resolving the postal code 01907 to (42.4825, -70.88). -/
def c2Geo : String → Option (Rat × Rat) :=
  fun z => if z = "01907" then some (Rat.mk' 16993 400, Rat.mk' (-1772) 25) else none

/-- A provider item whose venue (42.5708, -70.88) lies about 6.1 great-circle
miles north of the search center (42.4825, -70.88). -/
def c2FarItem : TMItem :=
  { name := some "Far Event", dateTime := some (.iso 1000 none), localDate := none,
    venues := some [{ locLatitude := some (.num (Rat.mk' 106427 2500)),
                      locLongitude := some (.num (Rat.mk' (-1772) 25)),
                      name := some "Far Venue" }],
    url := some "http://tm.example/far", id := none, images := [], priceRanges := [] }

def c2TMWorld : TMWorld := fun _ p =>
  if p = 0 then { status := 200, events := [c2FarItem], totalPages := 1 }
  else { status := 200, events := [], totalPages := 1 }

def c2EBWorld : EBWorld :=
  { search := fun _ _ => { status := 200, events := [], pageCount := 1 },
    tickets := fun _ _ => { status := 404, classes := [] } }

def c2FarEvent : Event :=
  { title := "Far Event", date := { wall := 1000, tz := none }, location := "Far Venue",
    latitude := Rat.mk' 106427 2500, longitude := Rat.mk' (-1772) 25,
    url := "http://tm.example/far", source := "Ticketmaster" }

/-- Stand-in for `geopy.distance.geodesic` evaluated on the pair of points of
the scenario: the true geodesic distance between (42.4825, -70.88) and
(42.5708, -70.88) is about 6.1 miles. -/
def c2Geodesic : Rat → Rat → Rat → Rat → Rat := fun _ _ _ _ => Rat.mk' 61 10

def c3Item0 : TMItem :=
  { name := some "TM page zero", dateTime := some (.iso 100 none), localDate := none,
    venues := none, url := none, id := none, images := [], priceRanges := [] }

def c3Item1 : TMItem :=
  { name := some "TM page one", dateTime := some (.iso 200 none), localDate := none,
    venues := none, url := none, id := none, images := [], priceRanges := [] }

/-- Ticketmaster world with three pages: page 0 and 1 succeed, page 2 fails. -/
def c3TMWorld : TMWorld := fun _ p =>
  if p = 0 then { status := 200, events := [c3Item0], totalPages := 3 }
  else if p = 1 then { status := 200, events := [c3Item1], totalPages := 3 }
  else { status := 500, events := [], totalPages := 3 }

def c3Ev0 : Event :=
  { title := "TM page zero", date := { wall := 100, tz := none }, location := "",
    latitude := 0, longitude := 0, url := "", source := "Ticketmaster" }

def c3Ev1 : Event :=
  { title := "TM page one", date := { wall := 200, tz := none }, location := "",
    latitude := 0, longitude := 0, url := "", source := "Ticketmaster" }

def c3ItemA : EBItem :=
  { nameText := some "EB page one", startUtc := some (.iso 100 none),
    startLocal := none, venue := none, url := none, logoUrl := none, id := none }

def c3ItemC : EBItem :=
  { nameText := some "EB page three", startUtc := some (.iso 300 none),
    startLocal := none, venue := none, url := none, logoUrl := none, id := none }

/-- Eventbrite world with three pages: pages 1 and 3 succeed, page 2 fails. -/
def c3EBWorld : EBWorld :=
  { search := fun _ p =>
      if p = 1 then { status := 200, events := [c3ItemA], pageCount := 3 }
      else if p = 2 then { status := 500, events := [], pageCount := 3 }
      else { status := 200, events := [c3ItemC], pageCount := 3 },
    tickets := fun _ _ => { status := 404, classes := [] } }

def c3EvA : Event :=
  { title := "EB page one", date := { wall := 100, tz := none }, location := "",
    latitude := 0, longitude := 0, url := "", source := "Eventbrite" }

def c3EvC : Event :=
  { title := "EB page three", date := { wall := 300, tz := none }, location := "",
    latitude := 0, longitude := 0, url := "", source := "Eventbrite" }

def c4Geo : String → Option (Rat × Rat) :=
  fun z => if z = "01907" then some (Rat.mk' 16993 400, Rat.mk' (-1772) 25) else none

/-- Day number standing for 2025-06-01; the jazz events start at 19:00. -/
def c4Day : Int := 20240

def c4TMItem : TMItem :=
  { name := some "Jazz Night", dateTime := some (.iso (c4Day * 1440 + 1140) none),
    localDate := none,
    venues := some [{ locLatitude := some (.num (Rat.mk' 4249 100)),
                      locLongitude := some (.num (Rat.mk' (-1772) 25)),
                      name := some "Club A" }],
    url := some "http://tm.example/jazz", id := none, images := [], priceRanges := [] }

def c4EBItem : EBItem :=
  { nameText := some "Jazz Night", startUtc := some (.iso (c4Day * 1440 + 1140) none),
    startLocal := none,
    venue := some { latitude := some (.num (Rat.mk' 85 2)),
                    longitude := some (.num (Rat.mk' (-7087) 100)),
                    name := some "Club B", addressDisplay := none },
    url := some "http://eb.example/jazz", logoUrl := none, id := none }

def c4TMWorld : TMWorld := fun _ p =>
  if p = 0 then { status := 200, events := [c4TMItem], totalPages := 1 }
  else { status := 200, events := [], totalPages := 1 }

def c4EBWorld : EBWorld :=
  { search := fun _ p =>
      if p = 1 then { status := 200, events := [c4EBItem], pageCount := 1 }
      else { status := 200, events := [], pageCount := 1 },
    tickets := fun _ _ => { status := 404, classes := [] } }

def c4TMEvent : Event :=
  { title := "Jazz Night", date := { wall := c4Day * 1440 + 1140, tz := none },
    location := "Club A", latitude := Rat.mk' 4249 100, longitude := Rat.mk' (-1772) 25,
    url := "http://tm.example/jazz", source := "Ticketmaster" }

def c4EBEvent : Event :=
  { title := "Jazz Night", date := { wall := c4Day * 1440 + 1140, tz := none },
    location := "Club B", latitude := Rat.mk' 85 2, longitude := Rat.mk' (-7087) 100,
    url := "http://eb.example/jazz", source := "Eventbrite" }

/-- Geocoder that resolves nothing (unresolvable or empty postal code). -/
def c6Geo : String → Option (Rat × Rat) := fun _ => none

def c6TMWorld : TMWorld := fun _ _ => { status := 200, events := [], totalPages := 1 }

def c6EBWorld : EBWorld :=
  { search := fun _ _ => { status := 200, events := [], pageCount := 1 },
    tickets := fun _ _ => { status := 404, classes := [] } }

def c7Geo : String → Option (Rat × Rat) :=
  fun z => if z = "01907" then some (Rat.mk' 16993 400, Rat.mk' (-1772) 25) else none

/-- Ticketmaster world that contributes nothing (soft failure). -/
def c7TMWorld : TMWorld := fun _ _ => { status := 500, events := [], totalPages := 1 }

def c7xItemDefault : EBItem :=
  { nameText := some "via default token", startUtc := some (.iso 500 none),
    startLocal := none, venue := none, url := none, logoUrl := none, id := none }

def c7xItemUser : EBItem :=
  { nameText := some "via user token", startUtc := some (.iso 500 none),
    startLocal := none, venue := none, url := none, logoUrl := none, id := none }

/-- Eventbrite world that answers with a different event depending on which
bearer token the request carries. -/
def c7xEBWorld : EBWorld :=
  { search := fun tok p =>
      if tok = DEFAULT_EB_API_KEY then
        (if p = 1 then { status := 200, events := [c7xItemDefault], pageCount := 1 }
         else { status := 200, events := [], pageCount := 1 })
      else
        (if p = 1 then { status := 200, events := [c7xItemUser], pageCount := 1 }
         else { status := 200, events := [], pageCount := 1 }),
    tickets := fun _ _ => { status := 404, classes := [] } }

def c7xDefaultEvent : Event :=
  { title := "via default token", date := { wall := 500, tz := none }, location := "",
    latitude := Rat.mk' 16993 400, longitude := Rat.mk' (-1772) 25, url := "",
    source := "Eventbrite" }

def c7xUserEvent : Event :=
  { title := "via user token", date := { wall := 500, tz := none }, location := "",
    latitude := Rat.mk' 16993 400, longitude := Rat.mk' (-1772) 25, url := "",
    source := "Eventbrite" }

def c7Item : EBItem :=
  { nameText := some "shared listing", startUtc := some (.iso 700 none),
    startLocal := none, venue := none, url := none, logoUrl := none, id := none }

/-- Worlds for the C7 witness: they agree at the default token and differ
elsewhere. -/
def c7EBWorldA : EBWorld :=
  { search := fun tok p =>
      if tok = DEFAULT_EB_API_KEY then
        (if p = 1 then { status := 200, events := [c7Item], pageCount := 1 }
         else { status := 200, events := [], pageCount := 1 })
      else { status := 401, events := [], pageCount := 1 },
    tickets := fun _ _ => { status := 404, classes := [] } }

def c7EBWorldB : EBWorld :=
  { search := fun tok p =>
      if tok = DEFAULT_EB_API_KEY then
        (if p = 1 then { status := 200, events := [c7Item], pageCount := 1 }
         else { status := 200, events := [], pageCount := 1 })
      else (if p = 1 then { status := 200, events := [c7xItemUser], pageCount := 1 }
            else { status := 200, events := [], pageCount := 1 }),
    tickets := fun _ _ => { status := 404, classes := [] } }

/-- A Ticketmaster item whose source timestamp is timezone-aware (UTC offset
of 120 minutes). -/
def c8Item : TMItem :=
  { name := some "Aware Event", dateTime := some (.iso 1000 (some 120)),
    localDate := none, venues := none, url := none, id := none, images := [],
    priceRanges := [] }

def c8TMWorld : TMWorld := fun _ p =>
  if p = 0 then { status := 200, events := [c8Item], totalPages := 1 }
  else { status := 200, events := [], totalPages := 1 }

/-- The event produced from `c8Item` with a local offset of 60 minutes:
wall 1000 - 120 + 60 = 940, and no remaining offset. -/
def c8Event : Event :=
  { title := "Aware Event", date := { wall := 940, tz := none }, location := "",
    latitude := 0, longitude := 0, url := "", source := "Ticketmaster" }

def c10GoodItem : TMItem :=
  { name := some "Good Event", dateTime := some (.iso 100 none), localDate := none,
    venues := some [{ locLatitude := some (.num 42), locLongitude := some (.num (-70)),
                      name := some "Good Venue" }],
    url := none, id := some "good1", images := [], priceRanges := [] }

/-- An item with a usable date but a venue latitude on which `float()`
raises. -/
def c10BadItem : TMItem :=
  { name := some "Bad Event", dateTime := some (.iso 200 none), localDate := none,
    venues := some [{ locLatitude := some .bad, locLongitude := some (.num (-70)),
                      name := some "Bad Venue" }],
    url := none, id := none, images := [], priceRanges := [] }

def c10TMWorld : TMWorld := fun _ p =>
  if p = 0 then { status := 200, events := [c10GoodItem, c10BadItem], totalPages := 1 }
  else { status := 200, events := [], totalPages := 1 }

/-- Ordering of events by the sort key `x.date` (all dates in the pipeline
are naive, so comparing datetimes is comparing wall-clock values). -/
def dateLe (a b : Event) : Prop := a.date.wall ≤ b.date.wall

/-- Specification-side deduplication, phrased the way the spec states it:
keep the first event encountered for each key and discard every later
event whose key equals an earlier event's key. -/
def dedupSpec : List Event → List Event
  | [] => []
  | e :: rest =>
    e :: dedupSpec (rest.filter (fun x => decide (dedupKey x ≠ dedupKey e)))
termination_by l => l.length
decreasing_by
  simp only [List.length_cons]
  exact Nat.lt_succ_of_le (List.length_filter_le _ _)

/-! ### Helper lemmas about the stable insertion sort -/

theorem mem_insertByDate {b e : Event} : ∀ {l : List Event},
    b ∈ insertByDate e l ↔ b = e ∨ b ∈ l := by
  intro l
  induction l with
  | nil => simp [insertByDate]
  | cons a rest ih =>
    simp only [insertByDate]
    split
    · simp only [List.mem_cons, ih]
      tauto
    · simp only [List.mem_cons]

theorem pairwise_insertByDate {e : Event} : ∀ {l : List Event},
    l.Pairwise dateLe → (insertByDate e l).Pairwise dateLe := by
  intro l
  induction l with
  | nil => simp [insertByDate, dateLe]
  | cons a rest ih =>
    intro h
    rw [List.pairwise_cons] at h
    simp only [insertByDate]
    split
    · rename_i hle
      rw [List.pairwise_cons]
      refine ⟨?_, ih h.2⟩
      intro b hb
      rcases mem_insertByDate.mp hb with rfl | hb'
      · exact hle
      · exact h.1 b hb'
    · rename_i hgt
      push_neg at hgt
      rw [List.pairwise_cons]
      refine ⟨?_, List.pairwise_cons.mpr h⟩
      intro b hb
      rcases List.mem_cons.mp hb with rfl | hb'
      · exact le_of_lt hgt
      · exact le_trans (le_of_lt hgt) (h.1 b hb')

theorem insertByDate_perm (e : Event) : ∀ (l : List Event),
    (insertByDate e l).Perm (e :: l) := by
  intro l
  induction l with
  | nil => simp [insertByDate]
  | cons a rest ih =>
    simp only [insertByDate]
    split
    · exact (ih.cons a).trans (List.Perm.swap e a rest)
    · exact List.Perm.refl _

theorem filter_insertByDate (k : Int) (e : Event) : ∀ {l : List Event},
    l.Pairwise dateLe →
    (insertByDate e l).filter (fun x => decide (x.date.wall = k)) =
      l.filter (fun x => decide (x.date.wall = k))
        ++ if e.date.wall = k then [e] else [] := by
  intro l
  induction l with
  | nil =>
    intro _
    simp [insertByDate, List.filter_cons]
  | cons a rest ih =>
    intro h
    rw [List.pairwise_cons] at h
    simp only [insertByDate]
    split
    · rw [List.filter_cons, List.filter_cons, ih h.2]
      split <;> simp
    · rename_i hgt
      push_neg at hgt
      rw [List.filter_cons]
      by_cases hek : e.date.wall = k
      · have hnil : (a :: rest).filter (fun x => decide (x.date.wall = k)) = [] := by
          rw [List.filter_eq_nil_iff]
          intro x hx
          rcases List.mem_cons.mp hx with rfl | hx'
          · simp only [decide_eq_true_eq]
            omega
          · have := h.1 x hx'
            simp only [dateLe] at this
            simp only [decide_eq_true_eq]
            omega
        simp [hek, hnil]
      · simp [hek]

theorem foldl_insertByDate_pairwise : ∀ (l acc : List Event),
    acc.Pairwise dateLe →
    (l.foldl (fun acc e => insertByDate e acc) acc).Pairwise dateLe := by
  intro l
  induction l with
  | nil => intro acc h; exact h
  | cons e rest ih =>
    intro acc h
    exact ih (insertByDate e acc) (pairwise_insertByDate h)

theorem foldl_insertByDate_filter (k : Int) : ∀ (l acc : List Event),
    acc.Pairwise dateLe →
    (l.foldl (fun acc e => insertByDate e acc) acc).filter
        (fun x => decide (x.date.wall = k)) =
      acc.filter (fun x => decide (x.date.wall = k))
        ++ l.filter (fun x => decide (x.date.wall = k)) := by
  intro l
  induction l with
  | nil => intro acc _; simp
  | cons e rest ih =>
    intro acc h
    rw [List.foldl_cons, ih (insertByDate e acc) (pairwise_insertByDate h),
      filter_insertByDate k e h, List.filter_cons]
    by_cases hek : e.date.wall = k
    · simp [hek]
    · simp [hek]

theorem foldl_insertByDate_perm : ∀ (l acc : List Event),
    (l.foldl (fun acc e => insertByDate e acc) acc).Perm (acc ++ l) := by
  intro l
  induction l with
  | nil => intro acc; simp
  | cons e rest ih =>
    intro acc
    rw [List.foldl_cons]
    refine (ih (insertByDate e acc)).trans ?_
    refine (((insertByDate_perm e acc).append_right rest).trans ?_)
    exact (List.perm_middle).symm

theorem pySortedByDate_pairwise (l : List Event) :
    (pySortedByDate l).Pairwise dateLe :=
  foldl_insertByDate_pairwise l [] (List.Pairwise.nil)

theorem pySortedByDate_filter (l : List Event) (k : Int) :
    (pySortedByDate l).filter (fun x => decide (x.date.wall = k)) =
      l.filter (fun x => decide (x.date.wall = k)) :=
  foldl_insertByDate_filter k l [] (List.Pairwise.nil)

theorem pySortedByDate_perm (l : List Event) : (pySortedByDate l).Perm l :=
  foldl_insertByDate_perm l []

/-! ### Helper lemmas about deduplication -/

theorem dedupGo_eq_spec : ∀ (l : List Event) (seen : List (String × Int)),
    dedupGo seen l =
      dedupSpec (l.filter (fun e => decide (dedupKey e ∉ seen))) := by
  intro l
  induction l with
  | nil => intro seen; simp [dedupGo, dedupSpec]
  | cons e rest ih =>
    intro seen
    simp only [dedupGo, List.filter_cons]
    by_cases hmem : dedupKey e ∈ seen
    · rw [if_pos hmem, if_neg (by simp [hmem]), ih seen]
    · rw [if_neg hmem, if_pos (by simp [hmem]), dedupSpec, ih (dedupKey e :: seen)]
      congr 1
      rw [List.filter_filter]
      congr 1
      apply List.filter_congr
      intro a _
      by_cases h1 : dedupKey a = dedupKey e <;> by_cases h2 : dedupKey a ∈ seen <;>
        simp [h1, h2]

theorem dedup_eq_dedupSpec (l : List Event) : dedup l = dedupSpec l := by
  rw [dedup, dedupGo_eq_spec]
  congr 1
  apply List.filter_eq_self.mpr
  intro a _
  simp

theorem mem_of_mem_dedupGo {x : Event} : ∀ {l : List Event}
    {seen : List (String × Int)}, x ∈ dedupGo seen l → x ∈ l := by
  intro l
  induction l with
  | nil => intro seen h; simp [dedupGo] at h
  | cons e rest ih =>
    intro seen h
    simp only [dedupGo] at h
    split at h
    · exact List.mem_cons_of_mem _ (ih h)
    · rcases List.mem_cons.mp h with rfl | h'
      · exact List.mem_cons_self _ _
      · exact List.mem_cons_of_mem _ (ih h')

/-! ### Helper lemmas: every constructed event has a naive local date -/

theorem to_local_naive_tz (off : Int) (d : PyDateTime) :
    (_to_local_naive off d).tz = none := by
  rcases d with ⟨w, tz⟩
  cases tz <;> rfl

theorem tmNormalize_naive {off : Int} {lat lon : Rat} {ev : TMItem} {x : Event}
    (h : tmNormalize off lat lon ev = .ok (some x)) : x.date.tz = none := by
  unfold tmNormalize at h
  split at h
  · simp at h
  · split at h
    · simp at h
    · split at h
      · simp at h
      · split at h
        · simp at h
        · simp only [Except.ok.injEq, Option.some.injEq] at h
          subst h
          exact to_local_naive_tz _ _

theorem tmProcessCaught_naive {off : Int} {lat lon : Rat} {x : Event} :
    ∀ {items : List TMItem},
    x ∈ tmProcessCaught off lat lon items → x.date.tz = none := by
  intro items
  induction items with
  | nil => intro h; simp [tmProcessCaught] at h
  | cons ev rest ih =>
    intro h
    simp only [tmProcessCaught] at h
    split at h
    · simp at h
    · exact ih h
    · rename_i val heq
      rcases List.mem_cons.mp h with rfl | h'
      · exact tmNormalize_naive heq
      · exact ih h'

theorem tmProcessFirst_naive {off : Int} {lat lon : Rat} {x : Event} :
    ∀ {items : List TMItem} {out : List Event},
    tmProcessFirst off lat lon items = .ok out → x ∈ out → x.date.tz = none := by
  intro items
  induction items with
  | nil =>
    intro out h hx
    simp only [tmProcessFirst, Except.ok.injEq] at h
    subst h
    simp at hx
  | cons ev rest ih =>
    intro out h hx
    simp only [tmProcessFirst] at h
    split at h
    · simp at h
    · exact ih h hx
    · rename_i val heq
      split at h
      · simp at h
      · rename_i xs hrest
        simp only [Except.ok.injEq] at h
        subst h
        rcases List.mem_cons.mp hx with rfl | h'
        · exact tmNormalize_naive heq
        · exact ih hrest h'

theorem fetchE_tm_naive {w : TMWorld} {order : List Nat} {off : Int}
    {lat lon r : Rat} {s e : PyDateTime} {k : Option String}
    {out : List Event} {x : Event}
    (h : fetch_ticketmaster_eventsE w order off lat lon r s e k = .ok out)
    (hx : x ∈ out) : x.date.tz = none := by
  simp only [fetch_ticketmaster_eventsE] at h
  split at h
  · simp at h
  · split at h
    · simp only [Except.ok.injEq] at h
      subst h
      simp at hx
    · split at h
      · simp at h
      · rename_i out0 hfirst
        split at h
        · rw [if_neg (by omega)] at h
          simp only [Except.ok.injEq] at h
          subst h
          exact tmProcessFirst_naive hfirst hx
        · split at h
          · simp only [Except.ok.injEq] at h
            subst h
            rcases List.mem_append.mp hx with h1 | h2
            · exact tmProcessFirst_naive hfirst h1
            · rcases List.mem_flatten.mp h2 with ⟨lsub, hl, hxl⟩
              rcases List.mem_map.mp hl with ⟨p, hp, rfl⟩
              unfold tmPageContribution at hxl
              split at hxl
              · simp at hxl
              · exact tmProcessCaught_naive hxl
          · simp only [Except.ok.injEq] at h
            subst h
            exact tmProcessFirst_naive hfirst hx

theorem fetch_tm_naive {w : TMWorld} {order : List Nat} {off : Int}
    {lat lon r : Rat} {s e : PyDateTime} {k : Option String} {x : Event}
    (hx : x ∈ fetch_ticketmaster_events w order off lat lon r s e k) :
    x.date.tz = none := by
  unfold fetch_ticketmaster_events at hx
  split at hx
  · simp at hx
  · rename_i out hout
    exact fetchE_tm_naive hout hx

theorem ebNormalize_naive {w : EBWorld} {token : String} {off : Int}
    {lat lon : Rat} {ev : EBItem} {x : Event}
    (h : ebNormalize w token off lat lon ev = some x) : x.date.tz = none := by
  unfold ebNormalize at h
  split at h
  · simp at h
  · simp only [Option.some.injEq] at h
    subst h
    exact to_local_naive_tz _ _

theorem ebProcessItems_naive {w : EBWorld} {token : String} {off : Int}
    {lat lon : Rat} {items : List EBItem} {x : Event}
    (hx : x ∈ ebProcessItems w token off lat lon items) : x.date.tz = none := by
  unfold ebProcessItems at hx
  rcases List.mem_filterMap.mp hx with ⟨ev, _, heq⟩
  exact ebNormalize_naive heq

theorem ebFetchPages_naive {w : EBWorld} {token : String} {off : Int}
    {lat lon : Rat} {x : Event} :
    ∀ {ps : List Nat},
    x ∈ ebFetchPages w token off lat lon ps → x.date.tz = none := by
  intro ps
  induction ps with
  | nil => intro h; simp [ebFetchPages] at h
  | cons p rest ih =>
    intro h
    simp only [ebFetchPages] at h
    split at h
    · simp at h
    · rcases List.mem_append.mp h with h1 | h2
      · exact ebProcessItems_naive h1
      · exact ih h2

theorem fetch_eb_naive {w : EBWorld} {off : Int} {lat lon r : Rat}
    {s e : PyDateTime} {k : Option String} {x : Event}
    (hx : x ∈ fetch_eventbrite_events w off lat lon r s e k) :
    x.date.tz = none := by
  unfold fetch_eventbrite_events at hx
  split at hx
  · simp at hx
  · rename_i out hout
    simp only [fetch_eventbrite_eventsE] at hout
    split at hout
    · simp at hout
    · split at hout
      · simp only [Except.ok.injEq] at hout
        subst hout
        simp at hx
      · simp only [Except.ok.injEq] at hout
        subst hout
        rcases List.mem_append.mp hx with h1 | h2
        · exact ebProcessItems_naive h1
        · exact ebFetchPages_naive h2

theorem aggregate_naive {geocoder : String → Option (Rat × Rat)}
    {tmW : TMWorld} {order : List Nat} {ebW : EBWorld} {off : Int}
    {zip : String} {r : Rat} {s e : PyDateTime} {k : Option String} {x : Event}
    (hx : x ∈ aggregate_events geocoder tmW order ebW off zip r s e k) :
    x.date.tz = none := by
  unfold aggregate_events at hx
  split at hx
  · simp at hx
  · rw [(pySortedByDate_perm _).mem_iff] at hx
    have hx' := mem_of_mem_dedupGo hx
    rcases List.mem_append.mp hx' with h1 | h2
    · exact fetch_tm_naive h1
    · exact fetch_eb_naive h2

/-! ### Helper lemmas: decomposition of the fetches and the aggregate -/

theorem pyOrStr_none (b : String) : pyOrStr none b = b := rfl

theorem aggregate_eq_sort_presort (g : String → Option (Rat × Rat))
    (tmW : TMWorld) (order : List Nat) (ebW : EBWorld) (off : Int)
    (zip : String) (r : Rat) (s e : PyDateTime) (k : Option String) :
    aggregate_events g tmW order ebW off zip r s e k =
      pySortedByDate (aggregate_presort g tmW order ebW off zip r s e k) := by
  unfold aggregate_events aggregate_presort
  cases hg : geocode_zip g zip with
  | none => simp only [hg]; rfl
  | some c => rcases c with ⟨lat, lon⟩; simp only [hg]

theorem fetchE_tm_decompose {w : TMWorld} {order : List Nat} {off : Int}
    {lat lon r : Rat} {s e : PyDateTime} {k : Option String} {out0 : List Event}
    (h200 : (w (pyOrStr k DEFAULT_TM_API_KEY) 0).status = 200)
    (hmulti : 1 < (w (pyOrStr k DEFAULT_TM_API_KEY) 0).totalPages)
    (hfirst : tmProcessFirst off lat lon
      (w (pyOrStr k DEFAULT_TM_API_KEY) 0).events = .ok out0) :
    fetch_ticketmaster_eventsE w order off lat lon r s e k =
      .ok (out0 ++ (order.map
        (tmPageContribution w (pyOrStr k DEFAULT_TM_API_KEY) off lat lon)).flatten) := by
  simp only [fetch_ticketmaster_eventsE]
  rw [if_neg (by simp [h200]), if_neg (by simp [h200])]
  simp only [hfirst]
  rw [if_neg (show ¬(w (pyOrStr k DEFAULT_TM_API_KEY) 0).totalPages = 0 by omega),
    if_pos hmulti]

theorem fetch_tm_decompose {w : TMWorld} {order : List Nat} {off : Int}
    {lat lon r : Rat} {s e : PyDateTime} {k : Option String} {out0 : List Event}
    (h200 : (w (pyOrStr k DEFAULT_TM_API_KEY) 0).status = 200)
    (hmulti : 1 < (w (pyOrStr k DEFAULT_TM_API_KEY) 0).totalPages)
    (hfirst : tmProcessFirst off lat lon
      (w (pyOrStr k DEFAULT_TM_API_KEY) 0).events = .ok out0) :
    fetch_ticketmaster_events w order off lat lon r s e k =
      out0 ++ (order.map
        (tmPageContribution w (pyOrStr k DEFAULT_TM_API_KEY) off lat lon)).flatten := by
  unfold fetch_ticketmaster_events
  rw [fetchE_tm_decompose h200 hmulti hfirst]

theorem tmPageContribution_of_fail {w : TMWorld} {apiKey : String} {off : Int}
    {lat lon : Rat} {p : Nat} (h : (w apiKey p).status ≠ 200) :
    tmPageContribution w apiKey off lat lon p = [] := by
  unfold tmPageContribution tm_fetch_page
  by_cases h1 : (w apiKey p).status = 401 ∨ (w apiKey p).status = 403
  · rw [if_pos h1]
  · rw [if_neg h1, if_pos h]
    rfl

theorem tmPageContribution_only_page {w w' : TMWorld} {apiKey : String}
    {off : Int} {lat lon : Rat} {p : Nat} (h : w apiKey p = w' apiKey p) :
    tmPageContribution w apiKey off lat lon p =
      tmPageContribution w' apiKey off lat lon p := by
  unfold tmPageContribution tm_fetch_page
  rw [h]

theorem ebFetchPages_break {w : EBWorld} {token : String} {off : Int}
    {lat lon : Rat} {q : Nat} (qs : List Nat) :
    ∀ (ps : List Nat), (∀ p ∈ ps, (w.search token p).status = 200) →
    (w.search token q).status ≠ 200 →
    ebFetchPages w token off lat lon (ps ++ q :: qs) =
      (ps.map (fun p =>
        ebProcessItems w token off lat lon (w.search token p).events)).flatten := by
  intro ps
  induction ps with
  | nil =>
    intro _ hfail
    simp only [List.nil_append, ebFetchPages, if_pos hfail, List.map_nil,
      List.flatten_nil]
  | cons p rest ih =>
    intro hok hfail
    have hp : (w.search token p).status = 200 := hok p (List.mem_cons_self _ _)
    simp only [List.cons_append, ebFetchPages, List.append_eq, List.map_cons,
      List.flatten_cons]
    rw [if_neg (fun hne => hne hp)]
    rw [ih (fun a ha => hok a (List.mem_cons_of_mem _ ha)) hfail]

theorem fetch_eb_decompose {w : EBWorld} {off : Int} {lat lon r : Rat}
    {s e : PyDateTime} {k : Option String}
    (h200 : (w.search (pyOrStr k DEFAULT_EB_API_KEY) 1).status = 200) :
    fetch_eventbrite_events w off lat lon r s e k =
      ebProcessItems w (pyOrStr k DEFAULT_EB_API_KEY) off lat lon
        (w.search (pyOrStr k DEFAULT_EB_API_KEY) 1).events
      ++ ebFetchPages w (pyOrStr k DEFAULT_EB_API_KEY) off lat lon
        (List.range' 2
          ((if (w.search (pyOrStr k DEFAULT_EB_API_KEY) 1).pageCount = 0 then 1
            else (w.search (pyOrStr k DEFAULT_EB_API_KEY) 1).pageCount) - 1)) := by
  unfold fetch_eventbrite_events
  simp only [fetch_eventbrite_eventsE]
  rw [if_neg (by simp [h200]), if_neg (by simp [h200])]

/-! ### Helper lemmas: the Eventbrite fetch reads the world only at the
resolved token -/

theorem price_for_event_congr {w w' : EBWorld} {token : String}
    (ht : ∀ i, w.tickets token i = w'.tickets token i) (evt_id : String) :
    _price_for_event w token evt_id = _price_for_event w' token evt_id := by
  unfold _price_for_event
  rw [ht evt_id]

theorem ebNormalize_congr {w w' : EBWorld} {token : String} {off : Int}
    {lat lon : Rat} (ht : ∀ i, w.tickets token i = w'.tickets token i)
    (ev : EBItem) :
    ebNormalize w token off lat lon ev = ebNormalize w' token off lat lon ev := by
  unfold ebNormalize
  simp only [price_for_event_congr ht]

theorem ebProcessItems_congr {w w' : EBWorld} {token : String} {off : Int}
    {lat lon : Rat} (ht : ∀ i, w.tickets token i = w'.tickets token i)
    (items : List EBItem) :
    ebProcessItems w token off lat lon items =
      ebProcessItems w' token off lat lon items := by
  unfold ebProcessItems
  rw [show ebNormalize w token off lat lon = ebNormalize w' token off lat lon
    from funext (ebNormalize_congr ht)]

theorem ebFetchPages_congr {w w' : EBWorld} {token : String} {off : Int}
    {lat lon : Rat} (hs : ∀ p, w.search token p = w'.search token p)
    (ht : ∀ i, w.tickets token i = w'.tickets token i) :
    ∀ ps : List Nat, ebFetchPages w token off lat lon ps =
      ebFetchPages w' token off lat lon ps := by
  intro ps
  induction ps with
  | nil => rfl
  | cons p rest ih =>
    simp only [ebFetchPages]
    rw [hs p, ih, ebProcessItems_congr ht]

theorem fetch_eb_congr {w w' : EBWorld} {off : Int} {lat lon r : Rat}
    {s e : PyDateTime} {k : Option String}
    (hs : ∀ p, w.search (pyOrStr k DEFAULT_EB_API_KEY) p
      = w'.search (pyOrStr k DEFAULT_EB_API_KEY) p)
    (ht : ∀ i, w.tickets (pyOrStr k DEFAULT_EB_API_KEY) i
      = w'.tickets (pyOrStr k DEFAULT_EB_API_KEY) i) :
    fetch_eventbrite_events w off lat lon r s e k =
      fetch_eventbrite_events w' off lat lon r s e k := by
  unfold fetch_eventbrite_events fetch_eventbrite_eventsE
  simp only [hs 1]
  rw [ebProcessItems_congr ht, ebFetchPages_congr hs ht]

/-! ### Claim theorems -/

/-- C4: the Aggregator's deduplication computes per event the key (title
trimmed of whitespace, lower-cased, truncated to a 40-character prefix;
calendar-day component of the date), keeps exactly the first event
encountered per key and discards every later event with the same key; two
"Jazz Night" events from different providers on the same day collapse to
the single first-seen one. -/
theorem C4_dedup_first_seen_by_key :
    (∀ l : List Event, dedup l = dedupSpec l) ∧
    dedupKey c4TMEvent = dedupKey c4EBEvent ∧
    dedupKey c4TMEvent = ("jazz night", c4Day) ∧
    dedup [c4TMEvent, c4EBEvent] = [c4TMEvent] ∧
    aggregate_events c4Geo c4TMWorld [] c4EBWorld 0 "01907" 5 epochDT epochDT none
      = [c4TMEvent] :=
  ⟨dedup_eq_dedupSpec, by decide, by decide, by decide, by decide⟩

/-- C5: every aggregation result is sorted non-decreasing by full timestamp,
equals the stable sort of the pre-sort merged deduplicated list, and events
with equal timestamps keep their pre-sort relative order (the filter at any
fixed timestamp is unchanged by the sort). -/
theorem C5_aggregate_sorted_stable (g : String → Option (Rat × Rat))
    (tmW : TMWorld) (order : List Nat) (ebW : EBWorld) (off : Int)
    (zip : String) (r : Rat) (s e : PyDateTime) (k : Option String) :
    (aggregate_events g tmW order ebW off zip r s e k).Pairwise dateLe ∧
    aggregate_events g tmW order ebW off zip r s e k =
      pySortedByDate (aggregate_presort g tmW order ebW off zip r s e k) ∧
    ∀ key : Int,
      (aggregate_events g tmW order ebW off zip r s e k).filter
          (fun x => decide (x.date.wall = key)) =
        (aggregate_presort g tmW order ebW off zip r s e k).filter
          (fun x => decide (x.date.wall = key)) := by
  refine ⟨?_, aggregate_eq_sort_presort g tmW order ebW off zip r s e k, ?_⟩
  · rw [aggregate_eq_sort_presort]
    exact pySortedByDate_pairwise _
  · intro key
    rw [aggregate_eq_sort_presort]
    exact pySortedByDate_filter _ key

/-- C6: when the postal code cannot be resolved to coordinates, the
Aggregator returns the empty sequence (and, the embedding being total, no
exception reaches the caller). -/
theorem C6_geocode_failure_yields_empty (g : String → Option (Rat × Rat))
    (tmW : TMWorld) (order : List Nat) (ebW : EBWorld) (off : Int)
    (zip : String) (r : Rat) (s e : PyDateTime) (k : Option String)
    (h : geocode_zip g zip = none) :
    aggregate_events g tmW order ebW off zip r s e k = [] := by
  simp only [aggregate_events, h]

/-- Witness for C6 at an empty postal code and a geocoder with no match. -/
theorem C6_witness :
    geocode_zip c6Geo "" = none ∧
    aggregate_events c6Geo c6TMWorld [] c6EBWorld 0 "" 5 epochDT epochDT none
      = [] :=
  ⟨rfl, C6_geocode_failure_yields_empty c6Geo c6TMWorld [] c6EBWorld 0 "" 5
    epochDT epochDT none rfl⟩

theorem fetch_tm_key_resolved (w : TMWorld) (order : List Nat) (off : Int)
    (lat lon r : Rat) (s e : PyDateTime) (k k' : Option String)
    (h : pyOrStr k DEFAULT_TM_API_KEY = pyOrStr k' DEFAULT_TM_API_KEY) :
    fetch_ticketmaster_events w order off lat lon r s e k =
      fetch_ticketmaster_events w order off lat lon r s e k' := by
  unfold fetch_ticketmaster_events fetch_ticketmaster_eventsE
  rw [h]

theorem fetch_eb_key_resolved (w : EBWorld) (off : Int) (lat lon r : Rat)
    (s e : PyDateTime) (k k' : Option String)
    (h : pyOrStr k DEFAULT_EB_API_KEY = pyOrStr k' DEFAULT_EB_API_KEY) :
    fetch_eventbrite_events w off lat lon r s e k =
      fetch_eventbrite_events w off lat lon r s e k' := by
  unfold fetch_eventbrite_events fetch_eventbrite_eventsE
  rw [h]

/-- C9: a missing (`None`) or empty-string credential resolves to the
hardcoded default API key of the module, and the fetch then behaves exactly
as if the default key had been supplied; an empty credential never by
itself changes the outcome of the fetch. -/
theorem C9_empty_or_missing_key_uses_default :
    pyOrStr none DEFAULT_TM_API_KEY = DEFAULT_TM_API_KEY ∧
    pyOrStr (some "") DEFAULT_TM_API_KEY = DEFAULT_TM_API_KEY ∧
    pyOrStr none DEFAULT_EB_API_KEY = DEFAULT_EB_API_KEY ∧
    pyOrStr (some "") DEFAULT_EB_API_KEY = DEFAULT_EB_API_KEY ∧
    (∀ (w : TMWorld) (order : List Nat) (off : Int) (lat lon r : Rat)
        (s e : PyDateTime),
      fetch_ticketmaster_events w order off lat lon r s e (some "") =
        fetch_ticketmaster_events w order off lat lon r s e none ∧
      fetch_ticketmaster_events w order off lat lon r s e none =
        fetch_ticketmaster_events w order off lat lon r s e
          (some DEFAULT_TM_API_KEY)) ∧
    (∀ (w : EBWorld) (off : Int) (lat lon r : Rat) (s e : PyDateTime),
      fetch_eventbrite_events w off lat lon r s e (some "") =
        fetch_eventbrite_events w off lat lon r s e none ∧
      fetch_eventbrite_events w off lat lon r s e none =
        fetch_eventbrite_events w off lat lon r s e
          (some DEFAULT_EB_API_KEY)) :=
  ⟨rfl, by decide, rfl, by decide,
   fun w order off lat lon r s e =>
     ⟨fetch_tm_key_resolved w order off lat lon r s e _ _ (by decide),
      fetch_tm_key_resolved w order off lat lon r s e _ _ (by decide)⟩,
   fun w off lat lon r s e =>
     ⟨fetch_eb_key_resolved w off lat lon r s e _ _ (by decide),
      fetch_eb_key_resolved w off lat lon r s e _ _ (by decide)⟩⟩

/-- C1 (counterexample): a first-page 401 (or 403) authorization rejection
makes the provider fetch return the empty list — the same value a genuine
zero-result response produces — so no typed auth failure reaches the
caller. -/
theorem C1_counterexample :
    fetch_ticketmaster_events c1TM401 [] 0 0 0 5 epochDT epochDT none = [] ∧
    fetch_ticketmaster_events c1TM403 [] 0 0 0 5 epochDT epochDT none = [] ∧
    fetch_eventbrite_events c1EB401 0 0 0 5 epochDT epochDT none = [] ∧
    fetch_ticketmaster_events c1TMZero [] 0 0 0 5 epochDT epochDT none = [] ∧
    fetch_eventbrite_events c1EBZero 0 0 0 5 epochDT epochDT none = [] :=
  ⟨by decide, by decide, by decide, by decide, by decide⟩

/-- C1 (amended): a first-page authorization failure (401/403 for
Ticketmaster, 401 for Eventbrite) raises a typed `ValueError` inside the
fetch body, but the function's catch-all handler converts it into the
empty list, so the caller receives `[]`, indistinguishable from zero
results. -/
theorem C1_auth_failure_raised_then_swallowed :
    (∀ (w : TMWorld) (order : List Nat) (off : Int) (lat lon r : Rat)
        (s e : PyDateTime) (k : Option String),
      ((w (pyOrStr k DEFAULT_TM_API_KEY) 0).status = 401 ∨
        (w (pyOrStr k DEFAULT_TM_API_KEY) 0).status = 403) →
      fetch_ticketmaster_eventsE w order off lat lon r s e k =
          .error (.valueError "Ticketmaster API key is invalid or unauthorized.") ∧
        fetch_ticketmaster_events w order off lat lon r s e k = []) ∧
    (∀ (w : EBWorld) (off : Int) (lat lon r : Rat) (s e : PyDateTime)
        (k : Option String),
      (w.search (pyOrStr k DEFAULT_EB_API_KEY) 1).status = 401 →
      fetch_eventbrite_eventsE w off lat lon r s e k =
          .error (.valueError "Eventbrite API key is invalid or unauthorized.") ∧
        fetch_eventbrite_events w off lat lon r s e k = []) := by
  constructor
  · intro w order off lat lon r s e k hauth
    have hE : fetch_ticketmaster_eventsE w order off lat lon r s e k =
        .error (.valueError "Ticketmaster API key is invalid or unauthorized.") := by
      simp only [fetch_ticketmaster_eventsE]
      rw [if_pos hauth]
    refine ⟨hE, ?_⟩
    unfold fetch_ticketmaster_events
    rw [hE]
  · intro w off lat lon r s e k hauth
    have hE : fetch_eventbrite_eventsE w off lat lon r s e k =
        .error (.valueError "Eventbrite API key is invalid or unauthorized.") := by
      simp only [fetch_eventbrite_eventsE]
      rw [if_pos hauth]
    refine ⟨hE, ?_⟩
    unfold fetch_eventbrite_events
    rw [hE]

/-- Witness for the amended C1 at concrete 401 worlds. -/
theorem C1_witness :
    (fetch_ticketmaster_eventsE c1TM401 [] 0 0 0 5 epochDT epochDT none =
        .error (.valueError "Ticketmaster API key is invalid or unauthorized.") ∧
      fetch_ticketmaster_events c1TM401 [] 0 0 0 5 epochDT epochDT none = []) ∧
    (fetch_eventbrite_eventsE c1EB401 0 0 0 5 epochDT epochDT none =
        .error (.valueError "Eventbrite API key is invalid or unauthorized.") ∧
      fetch_eventbrite_events c1EB401 0 0 0 5 epochDT epochDT none = []) :=
  ⟨C1_auth_failure_raised_then_swallowed.1 c1TM401 [] 0 0 0 5 epochDT epochDT
      none (Or.inl (by decide)),
   C1_auth_failure_raised_then_swallowed.2 c1EB401 0 0 0 5 epochDT epochDT
      none (by decide)⟩

/-- C2 (counterexample): with radius 5 miles and center (42.4825, -70.88),
an event whose venue (42.5708, -70.88) lies about 6.1 great-circle miles
from the center — as computed by the code's own distance helper — still
appears in the Aggregator's final output. -/
theorem C2_counterexample :
    _haversine_miles c2Geodesic (Rat.mk' 16993 400) (Rat.mk' (-1772) 25)
        (Rat.mk' 106427 2500) (Rat.mk' (-1772) 25) > 5 ∧
    c2FarEvent ∈ aggregate_events c2Geo c2TMWorld [] c2EBWorld 0 "01907" 5
        epochDT epochDT none :=
  ⟨by decide, by decide⟩

/-- C2 (amended): the Aggregator applies no distance filter: an event is in
the final output exactly when it is in the deduplicated merged provider
lists, with no condition on its venue's distance from the search center. -/
theorem C2_no_distance_filter (g : String → Option (Rat × Rat))
    (tmW : TMWorld) (order : List Nat) (ebW : EBWorld) (off : Int)
    (zip : String) (r : Rat) (s e : PyDateTime) (k : Option String)
    (ev : Event) :
    ev ∈ aggregate_events g tmW order ebW off zip r s e k ↔
      ev ∈ aggregate_presort g tmW order ebW off zip r s e k := by
  rw [aggregate_eq_sort_presort]
  exact (pySortedByDate_perm _).mem_iff

/-- C8: every event produced by either provider fetch, and hence every
event in the Aggregator's output, carries a naive local timestamp: its
date has no embedded offset. -/
theorem C8_dates_local_naive :
    (∀ (w : TMWorld) (order : List Nat) (off : Int) (lat lon r : Rat)
        (s e : PyDateTime) (k : Option String) (x : Event),
      x ∈ fetch_ticketmaster_events w order off lat lon r s e k →
      x.date.tz = none) ∧
    (∀ (w : EBWorld) (off : Int) (lat lon r : Rat) (s e : PyDateTime)
        (k : Option String) (x : Event),
      x ∈ fetch_eventbrite_events w off lat lon r s e k → x.date.tz = none) ∧
    (∀ (g : String → Option (Rat × Rat)) (tmW : TMWorld) (order : List Nat)
        (ebW : EBWorld) (off : Int) (zip : String) (r : Rat)
        (s e : PyDateTime) (k : Option String) (x : Event),
      x ∈ aggregate_events g tmW order ebW off zip r s e k →
      x.date.tz = none) :=
  ⟨fun _ _ _ _ _ _ _ _ _ _ h => fetch_tm_naive h,
   fun _ _ _ _ _ _ _ _ _ h => fetch_eb_naive h,
   fun _ _ _ _ _ _ _ _ _ _ _ h => aggregate_naive h⟩

/-- Witness for C8: a timezone-aware source timestamp (offset 120 minutes)
under a local offset of 60 minutes yields an event whose date is naive. -/
theorem C8_witness :
    c8Event ∈ fetch_ticketmaster_events c8TMWorld [] 60 0 0 5 epochDT epochDT
      none ∧
    c8Event.date.tz = none :=
  ⟨by decide,
   C8_dates_local_naive.1 c8TMWorld [] 60 0 0 5 epochDT epochDT none c8Event
     (by decide)⟩

/-- C10: if the first page's response is OK but normalizing one of its items
raises — here a venue latitude on which `float()` raises — the whole
Ticketmaster fetch returns `[]`, discarding the well-formed items too. -/
theorem C10_bad_first_page_item_discards_all :
    (∀ (w : TMWorld) (order : List Nat) (off : Int) (lat lon r : Rat)
        (s e : PyDateTime) (k : Option String) (err : PyErr),
      (w (pyOrStr k DEFAULT_TM_API_KEY) 0).status = 200 →
      tmProcessFirst off lat lon (w (pyOrStr k DEFAULT_TM_API_KEY) 0).events =
        .error err →
      fetch_ticketmaster_events w order off lat lon r s e k = []) ∧
    tmNormalize 0 0 0 c10BadItem =
      .error (.valueError "could not convert string to float") ∧
    tmProcessFirst 0 0 0 [c10GoodItem, c10BadItem] =
      .error (.valueError "could not convert string to float") ∧
    (tmProcessFirst 0 0 0 [c10GoodItem]).isOk = true := by
  refine ⟨?_, by rfl, by rfl, by rfl⟩
  intro w order off lat lon r s e k err h200 herr
  unfold fetch_ticketmaster_events
  have hE : fetch_ticketmaster_eventsE w order off lat lon r s e k =
      .error err := by
    simp only [fetch_ticketmaster_eventsE]
    rw [if_neg (by simp [h200]), if_neg (by simp [h200])]
    simp only [herr]
  rw [hE]

/-- Witness for C10: a good item followed by a bad-latitude item on the
first page makes the whole fetch return the empty list. -/
theorem C10_witness :
    fetch_ticketmaster_events c10TMWorld [] 0 0 0 5 epochDT epochDT none = [] :=
  C10_bad_first_page_item_discards_all.1 c10TMWorld [] 0 0 0 5 epochDT epochDT
    none (.valueError "could not convert string to float") (by decide)
    (by rfl)

/-- C3 (counterexample): in the Eventbrite fetch a failure on page 2 of 3
drops page 3's results as well: the fetch returns only page 1's events and
the event on page 3 is missing, so page-failure independence does not hold
for the Marketplace variant. -/
theorem C3_counterexample :
    fetch_eventbrite_events c3EBWorld 0 0 0 5 epochDT epochDT none = [c3EvA] ∧
    c3EvC ∉ fetch_eventbrite_events c3EBWorld 0 0 0 5 epochDT epochDT none :=
  ⟨by decide, by decide⟩

/-- C3 (amended): for Ticketmaster, every remaining page is requested and
pages are independent — the output is the first page's events followed by
the per-page contributions in completion order, and a failing page
contributes exactly the empty list.  For Eventbrite, the remaining pages
are fetched sequentially and the first non-success response stops the
loop, dropping that page and every later page. -/
theorem C3_tm_pages_independent_eb_loop_breaks :
    (∀ (w : TMWorld) (order : List Nat) (off : Int) (lat lon r : Rat)
        (s e : PyDateTime) (k : Option String) (out0 : List Event),
      (w (pyOrStr k DEFAULT_TM_API_KEY) 0).status = 200 →
      1 < (w (pyOrStr k DEFAULT_TM_API_KEY) 0).totalPages →
      tmProcessFirst off lat lon (w (pyOrStr k DEFAULT_TM_API_KEY) 0).events =
        .ok out0 →
      order.Perm (List.range' 1
        ((w (pyOrStr k DEFAULT_TM_API_KEY) 0).totalPages - 1)) →
      fetch_ticketmaster_events w order off lat lon r s e k =
          out0 ++ (order.map
            (tmPageContribution w (pyOrStr k DEFAULT_TM_API_KEY) off lat lon)).flatten
        ∧ (∀ p, p ∈ order ↔
            1 ≤ p ∧ p < (w (pyOrStr k DEFAULT_TM_API_KEY) 0).totalPages)
        ∧ ∀ p, (w (pyOrStr k DEFAULT_TM_API_KEY) p).status ≠ 200 →
            tmPageContribution w (pyOrStr k DEFAULT_TM_API_KEY) off lat lon p
              = []) ∧
    (∀ (w : EBWorld) (off : Int) (lat lon r : Rat) (s e : PyDateTime)
        (k : Option String) (ps : List Nat) (q : Nat) (qs : List Nat),
      (w.search (pyOrStr k DEFAULT_EB_API_KEY) 1).status = 200 →
      (∀ p ∈ ps, (w.search (pyOrStr k DEFAULT_EB_API_KEY) p).status = 200) →
      (w.search (pyOrStr k DEFAULT_EB_API_KEY) q).status ≠ 200 →
      List.range' 2
          ((if (w.search (pyOrStr k DEFAULT_EB_API_KEY) 1).pageCount = 0 then 1
            else (w.search (pyOrStr k DEFAULT_EB_API_KEY) 1).pageCount) - 1)
        = ps ++ q :: qs →
      fetch_eventbrite_events w off lat lon r s e k =
        ebProcessItems w (pyOrStr k DEFAULT_EB_API_KEY) off lat lon
          (w.search (pyOrStr k DEFAULT_EB_API_KEY) 1).events
        ++ (ps.map (fun p => ebProcessItems w (pyOrStr k DEFAULT_EB_API_KEY)
            off lat lon
            (w.search (pyOrStr k DEFAULT_EB_API_KEY) p).events)).flatten) := by
  constructor
  · intro w order off lat lon r s e k out0 h200 hmulti hfirst hperm
    refine ⟨fetch_tm_decompose h200 hmulti hfirst, ?_, ?_⟩
    · intro p
      rw [hperm.mem_iff, List.mem_range'_1]
      omega
    · intro p hfail
      exact tmPageContribution_of_fail hfail
  · intro w off lat lon r s e k ps q qs h200 hok hfail hsplit
    rw [fetch_eb_decompose h200, hsplit, ebFetchPages_break qs ps hok hfail]

/-- Witness for the amended C3: a three-page Ticketmaster world whose page 2
fails still contributes page 1's event; a three-page Eventbrite world whose
page 2 fails returns only page 1's event. -/
theorem C3_witness :
    fetch_ticketmaster_events c3TMWorld [1, 2] 0 0 0 5 epochDT epochDT none =
      [c3Ev0, c3Ev1] ∧
    fetch_eventbrite_events c3EBWorld 0 0 0 5 epochDT epochDT none = [c3EvA] := by
  constructor
  · have h := (C3_tm_pages_independent_eb_loop_breaks.1 c3TMWorld [1, 2] 0 0 0 5
      epochDT epochDT none [c3Ev0] (by decide) (by decide) (by rfl) (by decide)).1
    rw [h]
    decide
  · have h := C3_tm_pages_independent_eb_loop_breaks.2 c3EBWorld 0 0 0 5
      epochDT epochDT none [] 2 [3] (by decide) (by simp) (by decide) (by decide)
    rw [h]
    decide

/-- C7 (counterexample): `aggregate_events` has no marketplace-credential
parameter; supplying a caller credential in the only credential slot
(`tm_key`) leaves the marketplace fetch on the default token: against a
world that answers differently per bearer token, the output is the
default-token event and not the other-token event. -/
theorem C7_counterexample :
    aggregate_events c7Geo c7TMWorld [] c7xEBWorld 0 "01907" 5 epochDT epochDT
        (some "caller-marketplace-key") = [c7xDefaultEvent] ∧
    c7xUserEvent ∉ aggregate_events c7Geo c7TMWorld [] c7xEBWorld 0 "01907" 5
        epochDT epochDT (some "caller-marketplace-key") :=
  ⟨by decide, by decide⟩

/-- C7 (amended): `aggregate_events` accepts only the catalog credential and
always invokes the marketplace fetch with `None` as its credential, so the
marketplace token resolves to the built-in default key: the output depends
on the Eventbrite world only through its responses to requests carrying
`DEFAULT_EB_API_KEY`, whatever credential the caller supplies. -/
theorem C7_marketplace_token_always_default (g : String → Option (Rat × Rat))
    (tmW : TMWorld) (order : List Nat) (ebW ebW' : EBWorld) (off : Int)
    (zip : String) (r : Rat) (s e : PyDateTime) (k : Option String)
    (hs : ∀ p, ebW.search DEFAULT_EB_API_KEY p
      = ebW'.search DEFAULT_EB_API_KEY p)
    (ht : ∀ i, ebW.tickets DEFAULT_EB_API_KEY i
      = ebW'.tickets DEFAULT_EB_API_KEY i) :
    aggregate_events g tmW order ebW off zip r s e k =
      aggregate_events g tmW order ebW' off zip r s e k := by
  have hs' : ∀ p, ebW.search (pyOrStr none DEFAULT_EB_API_KEY) p
      = ebW'.search (pyOrStr none DEFAULT_EB_API_KEY) p := hs
  have ht' : ∀ i, ebW.tickets (pyOrStr none DEFAULT_EB_API_KEY) i
      = ebW'.tickets (pyOrStr none DEFAULT_EB_API_KEY) i := ht
  simp only [aggregate_events]
  cases hg : geocode_zip g zip with
  | none => rfl
  | some c =>
    rcases c with ⟨lat, lon⟩
    show pySortedByDate (dedup (fetch_ticketmaster_events tmW order off lat lon
        r s e k ++ fetch_eventbrite_events ebW off lat lon r s e none)) =
      pySortedByDate (dedup (fetch_ticketmaster_events tmW order off lat lon
        r s e k ++ fetch_eventbrite_events ebW' off lat lon r s e none))
    rw [fetch_eb_congr hs' ht']

/-- Witness for the amended C7: two Eventbrite worlds that agree at the
default token (and differ elsewhere) give the same aggregate, with a
caller-supplied credential in the entry point's only credential slot. -/
theorem C7_witness :
    (∀ p, c7EBWorldA.search DEFAULT_EB_API_KEY p
      = c7EBWorldB.search DEFAULT_EB_API_KEY p) ∧
    aggregate_events c7Geo c7TMWorld [] c7EBWorldA 0 "01907" 5 epochDT epochDT
        (some "caller-key") =
      aggregate_events c7Geo c7TMWorld [] c7EBWorldB 0 "01907" 5 epochDT
        epochDT (some "caller-key") := by
  have hs : ∀ p, c7EBWorldA.search DEFAULT_EB_API_KEY p
      = c7EBWorldB.search DEFAULT_EB_API_KEY p := by
    intro p
    simp [c7EBWorldA, c7EBWorldB]
  exact ⟨hs, C7_marketplace_token_always_default c7Geo c7TMWorld [] c7EBWorldA
    c7EBWorldB 0 "01907" 5 epochDT epochDT (some "caller-key") hs
    (fun i => rfl)⟩
